import Mathlib

/-!
Shallow embedding of the WebSocket relay server for the OpenAI Realtime API
(`src/lib/audio.ts`, relay-server portion, together with the message types of
`src/types`).  Sockets are modelled by their ready-state; each event handler of
the source becomes a pure function from the session state (and the inbound
message or upstream event) to the new session state and the lists of messages
delivered to the client and of instructions sent upstream.
-/

namespace Relay

/-- WebSocket ready states, as in the `ws` library (`WebSocket.CONNECTING`,
`WebSocket.OPEN`, `WebSocket.CLOSING`, `WebSocket.CLOSED`). -/
inductive ReadyState
  | CONNECTING
  | OPEN
  | CLOSING
  | CLOSED
deriving DecidableEq, Repr

/-- Effect of calling `close()` on a socket: a closed socket stays closed,
any other socket enters the closing state (in particular it is no longer
`OPEN`). -/
def wsClose : ReadyState → ReadyState
  | .CLOSED => .CLOSED
  | _ => .CLOSING

/-- `SessionConfig` from `src/types`. -/
structure SessionConfig where
  voice : String
  prompt : String
  inputCostPerMinute : Rat
  outputCostPerMinute : Rat
  agentSpeaksFirst : Bool
deriving DecidableEq, Repr

/-- `ClientSession` from the relay server: the client socket, the nullable
upstream socket handle (carrying the socket's ready-state), the session id and
the nullable configuration. -/
structure ClientSession where
  clientWs : ReadyState
  openaiWs : Option ReadyState
  sessionId : String
  config : Option SessionConfig
deriving DecidableEq, Repr

inductive Role
  | user
  | assistant
deriving DecidableEq, Repr

/-- `ServerMessage` from `src/types` (relay → browser). -/
inductive ServerMessage
  | sessionCreated (sessionId : String)
  | sessionReady
  | audioOutput (audio : String)
  | transcriptPartial (role : Role) (text : String) (itemId : String)
  | transcriptFinal (role : Role) (text : String) (itemId : String)
  | usageUpdate (inputTokens outputTokens audioInputMs audioOutputMs : Nat)
  | error (message : String)
  | sessionEnded
deriving DecidableEq, Repr

/-- `ClientMessage` from `src/types` (browser → relay). -/
inductive ClientMessage
  | sessionStart (config : SessionConfig)
  | audioInput (audio : String)
  | sessionEnd
deriving DecidableEq, Repr

/-- The `turn_detection` block of the negotiation payload. -/
structure TurnDetection where
  type : String
  threshold : Rat
  prefix_padding_ms : Nat
  silence_duration_ms : Nat
deriving DecidableEq, Repr

/-- The `session` block of the `session.update` negotiation payload. -/
structure SessionUpdateBody where
  modalities : List String
  instructions : String
  voice : String
  input_audio_format : String
  output_audio_format : String
  input_audio_transcription_model : String
  turn_detection : TurnDetection
deriving DecidableEq, Repr

/-- Instructions the relay sends upstream to OpenAI. -/
inductive OpenAIInstr
  | sessionUpdate (session : SessionUpdateBody)
  | responseCreate (modalities : List String) (instructions : String)
  | inputAudioBufferAppend (audio : String)
deriving DecidableEq, Repr

/-- The `error` object of an upstream `error` event. -/
structure OAError where
  message : Option String
deriving DecidableEq, Repr

/-- `input_token_details` / `output_token_details` of an upstream usage
record; absent fields are `none`. -/
structure OAUsageDetails where
  audio_tokens : Option Nat
deriving DecidableEq, Repr

/-- The `usage` record of an upstream `response.done` event; absent fields
are `none`. -/
structure OAUsage where
  input_tokens : Option Nat
  output_tokens : Option Nat
  input_token_details : Option OAUsageDetails
  output_token_details : Option OAUsageDetails
deriving DecidableEq, Repr

/-- The `response` object of an upstream `response.done` event. -/
structure OAResponse where
  usage : Option OAUsage
deriving DecidableEq, Repr

/-- An upstream OpenAI event, with the fields the relay reads; a field that
is absent from the JSON payload is `none`. -/
structure OAEvent where
  type : String
  delta : Option String
  item_id : Option String
  transcript : Option String
  response : Option OAResponse
  error : Option OAError
deriving DecidableEq, Repr

/-- JavaScript `x || d` on an optional string: the default is taken when the
string is absent or empty (both are falsy). -/
def strOr (o : Option String) (d : String) : String :=
  match o with
  | some s => if s = "" then d else s
  | none => d

/-- `sendToClient`: the single guard through which every message to the
client passes — the message is delivered only when the client socket is
`OPEN`, otherwise nothing is sent (a silent no-op, never a throw). -/
def sendToClient (ws : ReadyState) (message : ServerMessage) : List ServerMessage :=
  if ws = ReadyState.OPEN then [message] else []

/-- Result of `connectToOpenAI`: the updated session, the messages sent to
the client, and whether an upstream transport open was actually initiated. -/
structure ConnectResult where
  session : ClientSession
  toClient : List ServerMessage
  connectAttempted : Bool
deriving DecidableEq, Repr

/-- `connectToOpenAI`: with no (or an empty, hence falsy) API key, report the
configuration error and return without touching the session; otherwise create
the upstream socket (initially `CONNECTING`) and attach it to the session. -/
def connectToOpenAI (apiKey : Option String) (session : ClientSession) : ConnectResult :=
  match apiKey with
  | none =>
      { session := session
        toClient := sendToClient session.clientWs (.error "OpenAI API key not configured")
        connectAttempted := false }
  | some k =>
      if k = "" then
        { session := session
          toClient := sendToClient session.clientWs (.error "OpenAI API key not configured")
          connectAttempted := false }
      else
        { session := { session with openaiWs := some .CONNECTING }
          toClient := []
          connectAttempted := true }

def defaultInstructions : String := "You are a helpful assistant."

def defaultVoice : String := "alloy"

/-- The negotiation payload built in the upstream `open` handler, with the
source's literal defaults (`session.config?.prompt || '...'`,
`session.config?.voice || 'alloy'`, pcm16 both ways, whisper-1
transcription, server-vad turn detection with threshold 0.6, 200 ms prefix
padding and 700 ms silence duration). -/
def sessionUpdateFor (config : Option SessionConfig) : SessionUpdateBody :=
  { modalities := ["text", "audio"]
    instructions := strOr (config.map SessionConfig.prompt) defaultInstructions
    voice := strOr (config.map SessionConfig.voice) defaultVoice
    input_audio_format := "pcm16"
    output_audio_format := "pcm16"
    input_audio_transcription_model := "whisper-1"
    turn_detection :=
      { type := "server_vad"
        threshold := (6 : Rat) / 10
        prefix_padding_ms := 200
        silence_duration_ms := 700 } }

/-- The `response.create` greeting instruction sent when the agent speaks
first. -/
def greetingInstruction : OpenAIInstr :=
  .responseCreate ["text", "audio"]
    "Greet the user warmly and ask how you can help them today. Keep it brief and friendly."

/-- The body of the agent-speaks-first timer: at delay expiry the captured
upstream socket's liveness is checked, and the greeting instruction is sent
only if the socket is still `OPEN`; otherwise nothing happens. -/
def greetingTimerFire (openaiWs : ReadyState) : List OpenAIInstr :=
  if openaiWs = ReadyState.OPEN then [greetingInstruction] else []

/-- An ordered effect of the upstream `open` handler: an instruction sent
upstream or a message delivered to the client. -/
inductive Effect
  | toUpstream (instr : OpenAIInstr)
  | toClient (m : ServerMessage)
deriving DecidableEq, Repr

/-- Result of the upstream `open` handler: its effects in program order, and
whether the greeting timer was scheduled. -/
structure OpenResult where
  effects : List Effect
  greetingScheduled : Bool
deriving DecidableEq, Repr

/-- The upstream `open` handler: send the negotiation `session.update`
upstream, then emit `session.ready` to the client, and schedule the greeting
timer iff the configuration requests the agent to speak first. -/
def onOpenAIOpen (session : ClientSession) : OpenResult :=
  { effects :=
      Effect.toUpstream (.sessionUpdate (sessionUpdateFor session.config))
        :: (sendToClient session.clientWs .sessionReady).map Effect.toClient
    greetingScheduled := (session.config.map SessionConfig.agentSpeaksFirst).getD false }

/-- The upstream `error` handler: report a generic connectivity error to the
client (the session is not otherwise modified). -/
def onOpenAIError (session : ClientSession) : List ServerMessage :=
  sendToClient session.clientWs (.error "Connection to AI failed")

/-- The upstream `close` handler: emit `session.ended` to the client and
null the session's upstream handle. -/
def onOpenAIClose (session : ClientSession) : ClientSession × List ServerMessage :=
  ({ session with openaiWs := none }, sendToClient session.clientWs .sessionEnded)

/-- A transport-level connect failure: the `ws` library emits `error` and
then `close` on the failed socket, so the relay runs `onOpenAIError`
followed by `onOpenAIClose`. -/
def onConnectFailure (session : ClientSession) : ClientSession × List ServerMessage :=
  let errOut := onOpenAIError session
  let closed := onOpenAIClose session
  (closed.1, errOut ++ closed.2)

/-- Result of `handleClientMessage`: the updated session, messages delivered
to the client, instructions sent upstream, whether a fresh upstream connect
was initiated, and the post-handler state of the upstream socket that was
attached on entry (the socket a pending greeting timer would have
captured). -/
structure ClientMsgResult where
  session : ClientSession
  toClient : List ServerMessage
  toUpstream : List OpenAIInstr
  connectAttempted : Bool
  oldUpstreamWs : Option ReadyState
deriving DecidableEq, Repr

/-- `handleClientMessage`: `session.start` attaches the configuration and
invokes `connectToOpenAI`; `audio.input` forwards the payload as an
`input_audio_buffer.append` instruction iff the upstream socket is `OPEN`
(silently dropped otherwise); `session.end` closes the upstream socket if
attached, nulls the handle, and emits `session.ended` to the client
regardless of prior state. -/
def handleClientMessage (apiKey : Option String) (session : ClientSession)
    (message : ClientMessage) : ClientMsgResult :=
  match message with
  | .sessionStart config =>
      let r := connectToOpenAI apiKey { session with config := some config }
      { session := r.session
        toClient := r.toClient
        toUpstream := []
        connectAttempted := r.connectAttempted
        oldUpstreamWs := session.openaiWs }
  | .audioInput audio =>
      if session.openaiWs = some ReadyState.OPEN then
        { session := session
          toClient := []
          toUpstream := [.inputAudioBufferAppend audio]
          connectAttempted := false
          oldUpstreamWs := session.openaiWs }
      else
        { session := session
          toClient := []
          toUpstream := []
          connectAttempted := false
          oldUpstreamWs := session.openaiWs }
  | .sessionEnd =>
      { session := { session with openaiWs := none }
        toClient := sendToClient session.clientWs .sessionEnded
        toUpstream := []
        connectAttempted := false
        oldUpstreamWs := session.openaiWs.map wsClose }

/-- `handleOpenAIEvent`: the upstream → client translation table.  JavaScript
truthiness is mirrored exactly: an absent or empty `delta`/`transcript`
suppresses the outbound message, `itemId || 'unknown'` falls back on absent
or empty item ids, and every missing usage number defaults to zero. -/
def handleOpenAIEvent (session : ClientSession) (event : OAEvent) : List ServerMessage :=
  match event.type with
  | "response.audio.delta" =>
      match event.delta with
      | some delta => if delta = "" then [] else sendToClient session.clientWs (.audioOutput delta)
      | none => []
  | "response.audio_transcript.delta" =>
      match event.delta with
      | some delta =>
          if delta = "" then []
          else
            sendToClient session.clientWs
              (.transcriptPartial .assistant delta (strOr event.item_id "unknown"))
      | none => []
  | "response.audio_transcript.done" =>
      match event.transcript with
      | some transcript =>
          if transcript = "" then []
          else
            sendToClient session.clientWs
              (.transcriptFinal .assistant transcript (strOr event.item_id "unknown"))
      | none => []
  | "conversation.item.input_audio_transcription.completed" =>
      match event.transcript with
      | some transcript =>
          if transcript = "" then []
          else
            sendToClient session.clientWs
              (.transcriptFinal .user transcript (strOr event.item_id "unknown"))
      | none => []
  | "response.done" =>
      match event.response with
      | some response =>
          match response.usage with
          | some usage =>
              sendToClient session.clientWs
                (.usageUpdate (usage.input_tokens.getD 0) (usage.output_tokens.getD 0)
                  ((usage.input_token_details.bind OAUsageDetails.audio_tokens).getD 0)
                  ((usage.output_token_details.bind OAUsageDetails.audio_tokens).getD 0))
          | none => []
      | none => []
  | "error" =>
      sendToClient session.clientWs
        (.error (strOr (event.error.bind OAError.message) "Unknown error from AI"))
  | _ => []

/-- The process-wide session registry (`const sessions = new Map(...)`). -/
abbrev Registry := List (String × ClientSession)

/-- `sessions.delete(sessionId)`. -/
def registryDelete (sessions : Registry) (sessionId : String) : Registry :=
  sessions.filter (fun p => p.1 ≠ sessionId)

/-- `sessions.get(sessionId)`. -/
def registryLookup (sessions : Registry) (sessionId : String) : Option ClientSession :=
  (sessions.find? (fun p => p.1 = sessionId)).map Prod.snd

/-- The client transport `close` handler: close the upstream socket if one
is attached (the handle keeps pointing at the now-closing socket) and
unconditionally delete the session from the registry. -/
def onClientClose (sessions : Registry) (session : ClientSession) :
    ClientSession × Registry :=
  ({ session with openaiWs := session.openaiWs.map wsClose },
    registryDelete sessions session.sessionId)

/-- C1: for every session with an open client socket, a `session.end` message
makes the relay close the upstream socket if attached (the captured socket is
no longer open), null the upstream handle, and emit exactly one
`session.ended` to the client; a second `session.end`, with the handle
already null, again emits exactly one `session.ended` and the (total)
handler does not fail. -/
theorem session_end_exactly_one_ended_and_idempotent
    (apiKey : Option String) (s : ClientSession) (h : s.clientWs = ReadyState.OPEN) :
    (handleClientMessage apiKey s .sessionEnd).toClient = [.sessionEnded] ∧
    (handleClientMessage apiKey s .sessionEnd).session.openaiWs = none ∧
    (handleClientMessage apiKey s .sessionEnd).oldUpstreamWs = s.openaiWs.map wsClose ∧
    (∀ st, s.openaiWs = some st → wsClose st ≠ ReadyState.OPEN) ∧
    (handleClientMessage apiKey (handleClientMessage apiKey s .sessionEnd).session
        .sessionEnd).toClient = [.sessionEnded] ∧
    (handleClientMessage apiKey (handleClientMessage apiKey s .sessionEnd).session
        .sessionEnd).session.openaiWs = none := by
  refine ⟨?_, ?_, ?_, ?_, ?_, ?_⟩ <;>
    simp [handleClientMessage, sendToClient, h]
  intro st _
  cases st <;> simp [wsClose]

/-- C1 witness: the theorem applied to a concrete session whose upstream
socket is open. -/
theorem session_end_exactly_one_ended_and_idempotent_witness :
    (⟨ReadyState.OPEN, some ReadyState.OPEN, "s1", none⟩ : ClientSession).clientWs
        = ReadyState.OPEN ∧
    ((handleClientMessage none ⟨ReadyState.OPEN, some ReadyState.OPEN, "s1", none⟩
        .sessionEnd).toClient = [.sessionEnded] ∧
      (handleClientMessage none ⟨ReadyState.OPEN, some ReadyState.OPEN, "s1", none⟩
        .sessionEnd).session.openaiWs = none ∧
      (handleClientMessage none ⟨ReadyState.OPEN, some ReadyState.OPEN, "s1", none⟩
        .sessionEnd).oldUpstreamWs
          = (some ReadyState.OPEN : Option ReadyState).map wsClose ∧
      (∀ st, (some ReadyState.OPEN : Option ReadyState) = some st
          → wsClose st ≠ ReadyState.OPEN) ∧
      (handleClientMessage none
        (handleClientMessage none ⟨ReadyState.OPEN, some ReadyState.OPEN, "s1", none⟩
          .sessionEnd).session .sessionEnd).toClient = [.sessionEnded] ∧
      (handleClientMessage none
        (handleClientMessage none ⟨ReadyState.OPEN, some ReadyState.OPEN, "s1", none⟩
          .sessionEnd).session .sessionEnd).session.openaiWs = none) :=
  ⟨rfl, session_end_exactly_one_ended_and_idempotent none
    ⟨ReadyState.OPEN, some ReadyState.OPEN, "s1", none⟩ rfl⟩

/-- C2: every upstream `response.done` event carrying a usage record yields
exactly one `usage.update` whose fields are the extracted token counts and
nested audio-token sub-counts with every missing numeric field defaulted to
zero; in particular usage
`{input_tokens: 120, output_tokens: 45, input_token_details: {audio_tokens: 30}}`
yields `usage.update{inputTokens:120, outputTokens:45, audioInputMs:30, audioOutputMs:0}`. -/
theorem usage_update_translation
    (s : ClientSession) (u : OAUsage) (h : s.clientWs = ReadyState.OPEN) :
    handleOpenAIEvent s ⟨"response.done", none, none, none, some ⟨some u⟩, none⟩ =
      [.usageUpdate (u.input_tokens.getD 0) (u.output_tokens.getD 0)
        ((u.input_token_details.bind OAUsageDetails.audio_tokens).getD 0)
        ((u.output_token_details.bind OAUsageDetails.audio_tokens).getD 0)] ∧
    handleOpenAIEvent s
        ⟨"response.done", none, none, none,
          some ⟨some ⟨some 120, some 45, some ⟨some 30⟩, none⟩⟩, none⟩ =
      [.usageUpdate 120 45 30 0] := by
  constructor <;> simp [handleOpenAIEvent, sendToClient, h]

/-- C2 witness: the theorem applied to a concrete open session and a usage
record with a missing output sub-count. -/
theorem usage_update_translation_witness :
    (⟨ReadyState.OPEN, none, "s2", none⟩ : ClientSession).clientWs = ReadyState.OPEN ∧
    (handleOpenAIEvent ⟨ReadyState.OPEN, none, "s2", none⟩
        ⟨"response.done", none, none, none,
          some ⟨some ⟨some 7, none, none, some ⟨some 4⟩⟩⟩, none⟩ =
      [.usageUpdate ((some 7 : Option Nat).getD 0) ((none : Option Nat).getD 0)
        (((none : Option OAUsageDetails).bind OAUsageDetails.audio_tokens).getD 0)
        (((some ⟨some 4⟩ : Option OAUsageDetails).bind OAUsageDetails.audio_tokens).getD 0)] ∧
      handleOpenAIEvent ⟨ReadyState.OPEN, none, "s2", none⟩
        ⟨"response.done", none, none, none,
          some ⟨some ⟨some 120, some 45, some ⟨some 30⟩, none⟩⟩, none⟩ =
      [.usageUpdate 120 45 30 0]) :=
  ⟨rfl, usage_update_translation ⟨ReadyState.OPEN, none, "s2", none⟩
    ⟨some 7, none, none, some ⟨some 4⟩⟩ rfl⟩

/-- C3: a finalized-transcript event (assistant `response.audio_transcript.done`
or user `conversation.item.input_audio_transcription.completed`) with empty
transcript text produces no outbound message at all; with non-empty text it
produces exactly one `transcript.final` with the corresponding role. -/
theorem empty_final_transcript_suppressed
    (s : ClientSession) (i : Option String) (t : String)
    (h : s.clientWs = ReadyState.OPEN) (ht : t ≠ "") :
    handleOpenAIEvent s ⟨"response.audio_transcript.done", none, i, some "", none, none⟩
        = [] ∧
    handleOpenAIEvent s
        ⟨"conversation.item.input_audio_transcription.completed", none, i, some "", none, none⟩
        = [] ∧
    handleOpenAIEvent s ⟨"response.audio_transcript.done", none, i, some t, none, none⟩
        = [.transcriptFinal .assistant t (strOr i "unknown")] ∧
    handleOpenAIEvent s
        ⟨"conversation.item.input_audio_transcription.completed", none, i, some t, none, none⟩
        = [.transcriptFinal .user t (strOr i "unknown")] := by
  refine ⟨?_, ?_, ?_, ?_⟩ <;> simp [handleOpenAIEvent, sendToClient, h, ht]

/-- C3 witness: the theorem applied to a concrete open session, a concrete
item id and the non-empty transcript text "hi". -/
theorem empty_final_transcript_suppressed_witness :
    ((⟨ReadyState.OPEN, none, "s3", none⟩ : ClientSession).clientWs = ReadyState.OPEN ∧
      ("hi" : String) ≠ "") ∧
    (handleOpenAIEvent ⟨ReadyState.OPEN, none, "s3", none⟩
        ⟨"response.audio_transcript.done", none, some "item_1", some "", none, none⟩ = [] ∧
      handleOpenAIEvent ⟨ReadyState.OPEN, none, "s3", none⟩
        ⟨"conversation.item.input_audio_transcription.completed", none, some "item_1",
          some "", none, none⟩ = [] ∧
      handleOpenAIEvent ⟨ReadyState.OPEN, none, "s3", none⟩
        ⟨"response.audio_transcript.done", none, some "item_1", some "hi", none, none⟩
        = [.transcriptFinal .assistant "hi" (strOr (some "item_1") "unknown")] ∧
      handleOpenAIEvent ⟨ReadyState.OPEN, none, "s3", none⟩
        ⟨"conversation.item.input_audio_transcription.completed", none, some "item_1",
          some "hi", none, none⟩
        = [.transcriptFinal .user "hi" (strOr (some "item_1") "unknown")]) :=
  ⟨⟨rfl, by decide⟩,
    empty_final_transcript_suppressed ⟨ReadyState.OPEN, none, "s3", none⟩
      (some "item_1") "hi" rfl (by decide)⟩

/-- C4: the client-transport close handler closes the attached upstream
socket if there is one (its state is no longer open) and unconditionally
removes the session identifier from the registry, so the registry holds no
entry for that identifier afterwards. -/
theorem client_close_no_dangling (sessions : Registry) (s : ClientSession) :
    registryLookup (onClientClose sessions s).2 s.sessionId = none ∧
    (∀ st, s.openaiWs = some st →
      (onClientClose sessions s).1.openaiWs = some (wsClose st) ∧
      wsClose st ≠ ReadyState.OPEN) := by
  constructor
  · simp [onClientClose, registryLookup, registryDelete, List.find?_eq_none,
      List.mem_filter]
  · intro st hst
    refine ⟨by simp [onClientClose, hst], ?_⟩
    cases st <;> simp [wsClose]

/-- C4 witness: the theorem applied to a registry holding the session, whose
upstream socket is open. -/
theorem client_close_no_dangling_witness :
    registryLookup
        (onClientClose [("s4", ⟨ReadyState.OPEN, some ReadyState.OPEN, "s4", none⟩)]
          ⟨ReadyState.OPEN, some ReadyState.OPEN, "s4", none⟩).2 "s4" = none ∧
    (∀ st, (some ReadyState.OPEN : Option ReadyState) = some st →
      (onClientClose [("s4", ⟨ReadyState.OPEN, some ReadyState.OPEN, "s4", none⟩)]
        ⟨ReadyState.OPEN, some ReadyState.OPEN, "s4", none⟩).1.openaiWs
          = some (wsClose st) ∧
      wsClose st ≠ ReadyState.OPEN) :=
  client_close_no_dangling [("s4", ⟨ReadyState.OPEN, some ReadyState.OPEN, "s4", none⟩)]
    ⟨ReadyState.OPEN, some ReadyState.OPEN, "s4", none⟩

/-- C5: the greeting timer sends the single greeting instruction only when
the captured upstream socket is still open at delay expiry, and a closed
socket is silently skipped; handling `session.end` sends nothing upstream
and leaves the captured socket non-open, so a `session.end` arriving before
the delay elapses means no greeting instruction is ever sent upstream. -/
theorem greeting_skipped_after_session_end
    (apiKey : Option String) (s : ClientSession) (ws : ReadyState)
    (h : s.openaiWs = some ws) :
    greetingTimerFire ReadyState.OPEN = [greetingInstruction] ∧
    (∀ w, w ≠ ReadyState.OPEN → greetingTimerFire w = []) ∧
    (handleClientMessage apiKey s .sessionEnd).toUpstream = [] ∧
    (handleClientMessage apiKey s .sessionEnd).oldUpstreamWs = some (wsClose ws) ∧
    greetingTimerFire (wsClose ws) = [] := by
  refine ⟨by simp [greetingTimerFire], ?_, by simp [handleClientMessage],
    by simp [handleClientMessage, h], ?_⟩
  · intro w hw
    simp [greetingTimerFire, hw]
  · cases ws <;> simp [greetingTimerFire, wsClose]

/-- C5 witness: the theorem applied to a session whose upstream socket is
open when `session.end` arrives before the timer fires. -/
theorem greeting_skipped_after_session_end_witness :
    (⟨ReadyState.OPEN, some ReadyState.OPEN, "s5", none⟩ : ClientSession).openaiWs
        = some ReadyState.OPEN ∧
    (greetingTimerFire ReadyState.OPEN = [greetingInstruction] ∧
      (∀ w, w ≠ ReadyState.OPEN → greetingTimerFire w = []) ∧
      (handleClientMessage none ⟨ReadyState.OPEN, some ReadyState.OPEN, "s5", none⟩
        .sessionEnd).toUpstream = [] ∧
      (handleClientMessage none ⟨ReadyState.OPEN, some ReadyState.OPEN, "s5", none⟩
        .sessionEnd).oldUpstreamWs = some (wsClose ReadyState.OPEN) ∧
      greetingTimerFire (wsClose ReadyState.OPEN) = []) :=
  ⟨rfl, greeting_skipped_after_session_end none
    ⟨ReadyState.OPEN, some ReadyState.OPEN, "s5", none⟩ ReadyState.OPEN rfl⟩

/-- C6: on upstream connect failure (the failed socket fires `error` then
`close`) the relay reports the generic connectivity error to the client, the
session's upstream handle ends up null, and the session is otherwise
untouched — same client socket, id and configuration — so a later
`session.start` with a credential present attempts a fresh connection. -/
theorem connect_failure_error_null_handle (s : ClientSession)
    (h : s.clientWs = ReadyState.OPEN) :
    (onConnectFailure s).2 = [.error "Connection to AI failed", .sessionEnded] ∧
    (onConnectFailure s).1.openaiWs = none ∧
    (onConnectFailure s).1.clientWs = s.clientWs ∧
    (onConnectFailure s).1.sessionId = s.sessionId ∧
    (onConnectFailure s).1.config = s.config ∧
    (∀ k cfg, k ≠ "" →
      (handleClientMessage (some k) (onConnectFailure s).1
        (.sessionStart cfg)).connectAttempted = true) := by
  refine ⟨?_, ?_, ?_, ?_, ?_, ?_⟩ <;>
    simp [onConnectFailure, onOpenAIError, onOpenAIClose, sendToClient, h,
      handleClientMessage, connectToOpenAI]
  intro k cfg hk
  simp [hk]

/-- C6 witness: the theorem applied to a concrete open session. -/
theorem connect_failure_error_null_handle_witness :
    (⟨ReadyState.OPEN, some ReadyState.CONNECTING, "s6", none⟩ : ClientSession).clientWs
        = ReadyState.OPEN ∧
    ((onConnectFailure ⟨ReadyState.OPEN, some ReadyState.CONNECTING, "s6", none⟩).2
        = [.error "Connection to AI failed", .sessionEnded] ∧
      (onConnectFailure ⟨ReadyState.OPEN, some ReadyState.CONNECTING, "s6", none⟩).1.openaiWs
        = none ∧
      (onConnectFailure ⟨ReadyState.OPEN, some ReadyState.CONNECTING, "s6", none⟩).1.clientWs
        = (⟨ReadyState.OPEN, some ReadyState.CONNECTING, "s6", none⟩ : ClientSession).clientWs ∧
      (onConnectFailure ⟨ReadyState.OPEN, some ReadyState.CONNECTING, "s6", none⟩).1.sessionId
        = (⟨ReadyState.OPEN, some ReadyState.CONNECTING, "s6", none⟩ : ClientSession).sessionId ∧
      (onConnectFailure ⟨ReadyState.OPEN, some ReadyState.CONNECTING, "s6", none⟩).1.config
        = (⟨ReadyState.OPEN, some ReadyState.CONNECTING, "s6", none⟩ : ClientSession).config ∧
      (∀ k cfg, k ≠ "" →
        (handleClientMessage (some k)
          (onConnectFailure ⟨ReadyState.OPEN, some ReadyState.CONNECTING, "s6", none⟩).1
          (.sessionStart cfg)).connectAttempted = true)) :=
  ⟨rfl, connect_failure_error_null_handle
    ⟨ReadyState.OPEN, some ReadyState.CONNECTING, "s6", none⟩ rfl⟩

/-- C7: a `session.start` received while the process-wide API key is absent
immediately yields exactly one configuration-error message to the client,
initiates no upstream connection attempt, and leaves the session's upstream
handle null. -/
theorem missing_api_key_config_error (s : ClientSession) (cfg : SessionConfig)
    (h : s.clientWs = ReadyState.OPEN) (h0 : s.openaiWs = none) :
    (handleClientMessage none s (.sessionStart cfg)).toClient
        = [.error "OpenAI API key not configured"] ∧
    (handleClientMessage none s (.sessionStart cfg)).connectAttempted = false ∧
    (handleClientMessage none s (.sessionStart cfg)).session.openaiWs = none := by
  refine ⟨?_, ?_, ?_⟩ <;>
    simp [handleClientMessage, connectToOpenAI, sendToClient, h, h0]

/-- C7 witness: the theorem applied to a concrete fresh session. -/
theorem missing_api_key_config_error_witness :
    ((⟨ReadyState.OPEN, none, "s7", none⟩ : ClientSession).clientWs = ReadyState.OPEN ∧
      (⟨ReadyState.OPEN, none, "s7", none⟩ : ClientSession).openaiWs = none) ∧
    ((handleClientMessage none ⟨ReadyState.OPEN, none, "s7", none⟩
        (.sessionStart ⟨"shimmer", "Be brief.", 0, 0, false⟩)).toClient
        = [.error "OpenAI API key not configured"] ∧
      (handleClientMessage none ⟨ReadyState.OPEN, none, "s7", none⟩
        (.sessionStart ⟨"shimmer", "Be brief.", 0, 0, false⟩)).connectAttempted = false ∧
      (handleClientMessage none ⟨ReadyState.OPEN, none, "s7", none⟩
        (.sessionStart ⟨"shimmer", "Be brief.", 0, 0, false⟩)).session.openaiWs = none) :=
  ⟨⟨rfl, rfl⟩, missing_api_key_config_error ⟨ReadyState.OPEN, none, "s7", none⟩
    ⟨"shimmer", "Be brief.", 0, 0, false⟩ rfl rfl⟩

/-- C8: on successful upstream open, exactly one negotiation message is sent
upstream — declaring text+audio modalities, the session's instruction text
(generic fallback when absent or empty), the selected voice (fallback
"alloy" when absent or empty), pcm16 input/output, whisper-1 transcription,
and server-vad turn detection with threshold in [0,1] and whole-millisecond
paddings — and `session.ready` is emitted to the client after it. -/
theorem negotiation_message_then_ready (s : ClientSession)
    (h : s.clientWs = ReadyState.OPEN) :
    (onOpenAIOpen s).effects =
      [Effect.toUpstream (.sessionUpdate (sessionUpdateFor s.config)),
        Effect.toClient .sessionReady] ∧
    (sessionUpdateFor s.config).modalities = ["text", "audio"] ∧
    (∀ c, s.config = some c → c.prompt ≠ "" →
      (sessionUpdateFor s.config).instructions = c.prompt) ∧
    ((s.config.map SessionConfig.prompt = none ∨ s.config.map SessionConfig.prompt = some "") →
      (sessionUpdateFor s.config).instructions = defaultInstructions) ∧
    (∀ c, s.config = some c → c.voice ≠ "" →
      (sessionUpdateFor s.config).voice = c.voice) ∧
    ((s.config.map SessionConfig.voice = none ∨ s.config.map SessionConfig.voice = some "") →
      (sessionUpdateFor s.config).voice = defaultVoice) ∧
    (sessionUpdateFor s.config).input_audio_format = "pcm16" ∧
    (sessionUpdateFor s.config).output_audio_format = "pcm16" ∧
    (sessionUpdateFor s.config).input_audio_transcription_model = "whisper-1" ∧
    (sessionUpdateFor s.config).turn_detection.type = "server_vad" ∧
    0 ≤ (sessionUpdateFor s.config).turn_detection.threshold ∧
    (sessionUpdateFor s.config).turn_detection.threshold ≤ 1 ∧
    (sessionUpdateFor s.config).turn_detection.prefix_padding_ms = 200 ∧
    (sessionUpdateFor s.config).turn_detection.silence_duration_ms = 700 := by
  refine ⟨by simp [onOpenAIOpen, sendToClient, h], rfl, ?_, ?_, ?_, ?_, rfl, rfl, rfl,
    rfl, by norm_num [sessionUpdateFor], by norm_num [sessionUpdateFor], rfl, rfl⟩
  · intro c hc hp
    simp [sessionUpdateFor, hc, strOr, hp]
  · intro hor
    rcases hcfg : s.config with _ | c
    · simp [sessionUpdateFor, hcfg, strOr]
    · rcases hor with hn | he
      · simp [hcfg] at hn
      · rw [hcfg] at he
        simp at he
        simp [sessionUpdateFor, hcfg, strOr, he]
  · intro c hc hv
    simp [sessionUpdateFor, hc, strOr, hv]
  · intro hor
    rcases hcfg : s.config with _ | c
    · simp [sessionUpdateFor, hcfg, strOr]
    · rcases hor with hn | he
      · simp [hcfg] at hn
      · rw [hcfg] at he
        simp at he
        simp [sessionUpdateFor, hcfg, strOr, he]

/-- C8 witness: the theorem applied to a session with an open client socket
and a configuration carrying an empty prompt and the voice "shimmer". -/
theorem negotiation_message_then_ready_witness :
    (⟨ReadyState.OPEN, some ReadyState.OPEN, "s8",
        some ⟨"shimmer", "", 0, 0, false⟩⟩ : ClientSession).clientWs = ReadyState.OPEN ∧
    ((onOpenAIOpen ⟨ReadyState.OPEN, some ReadyState.OPEN, "s8",
        some ⟨"shimmer", "", 0, 0, false⟩⟩).effects =
      [Effect.toUpstream (.sessionUpdate (sessionUpdateFor
          (some ⟨"shimmer", "", 0, 0, false⟩))),
        Effect.toClient .sessionReady] ∧
      (sessionUpdateFor (some ⟨"shimmer", "", 0, 0, false⟩)).modalities = ["text", "audio"] ∧
      (∀ c, (some ⟨"shimmer", "", 0, 0, false⟩ : Option SessionConfig) = some c →
        c.prompt ≠ "" →
        (sessionUpdateFor (some ⟨"shimmer", "", 0, 0, false⟩)).instructions = c.prompt) ∧
      (((some ⟨"shimmer", "", 0, 0, false⟩ : Option SessionConfig).map SessionConfig.prompt
            = none ∨
          (some ⟨"shimmer", "", 0, 0, false⟩ : Option SessionConfig).map SessionConfig.prompt
            = some "") →
        (sessionUpdateFor (some ⟨"shimmer", "", 0, 0, false⟩)).instructions
          = defaultInstructions) ∧
      (∀ c, (some ⟨"shimmer", "", 0, 0, false⟩ : Option SessionConfig) = some c →
        c.voice ≠ "" →
        (sessionUpdateFor (some ⟨"shimmer", "", 0, 0, false⟩)).voice = c.voice) ∧
      (((some ⟨"shimmer", "", 0, 0, false⟩ : Option SessionConfig).map SessionConfig.voice
            = none ∨
          (some ⟨"shimmer", "", 0, 0, false⟩ : Option SessionConfig).map SessionConfig.voice
            = some "") →
        (sessionUpdateFor (some ⟨"shimmer", "", 0, 0, false⟩)).voice = defaultVoice) ∧
      (sessionUpdateFor (some ⟨"shimmer", "", 0, 0, false⟩)).input_audio_format = "pcm16" ∧
      (sessionUpdateFor (some ⟨"shimmer", "", 0, 0, false⟩)).output_audio_format = "pcm16" ∧
      (sessionUpdateFor (some ⟨"shimmer", "", 0, 0, false⟩)).input_audio_transcription_model
        = "whisper-1" ∧
      (sessionUpdateFor (some ⟨"shimmer", "", 0, 0, false⟩)).turn_detection.type
        = "server_vad" ∧
      0 ≤ (sessionUpdateFor (some ⟨"shimmer", "", 0, 0, false⟩)).turn_detection.threshold ∧
      (sessionUpdateFor (some ⟨"shimmer", "", 0, 0, false⟩)).turn_detection.threshold ≤ 1 ∧
      (sessionUpdateFor (some ⟨"shimmer", "", 0, 0, false⟩)).turn_detection.prefix_padding_ms
        = 200 ∧
      (sessionUpdateFor (some ⟨"shimmer", "", 0, 0, false⟩)).turn_detection.silence_duration_ms
        = 700) :=
  ⟨rfl, negotiation_message_then_ready
    ⟨ReadyState.OPEN, some ReadyState.OPEN, "s8", some ⟨"shimmer", "", 0, 0, false⟩⟩ rfl⟩

/-- C9: an `audio.input` payload is forwarded verbatim as an
`input_audio_buffer.append` instruction iff the upstream socket is attached
and open; otherwise it is silently dropped — in either case no message is
sent to the client and the session is unchanged. -/
theorem audio_input_forward_iff_open (apiKey : Option String) (s : ClientSession)
    (audio : String) :
    (s.openaiWs = some ReadyState.OPEN →
      (handleClientMessage apiKey s (.audioInput audio)).toUpstream
        = [.inputAudioBufferAppend audio]) ∧
    (s.openaiWs ≠ some ReadyState.OPEN →
      (handleClientMessage apiKey s (.audioInput audio)).toUpstream = []) ∧
    (handleClientMessage apiKey s (.audioInput audio)).toClient = [] ∧
    (handleClientMessage apiKey s (.audioInput audio)).session = s := by
  refine ⟨?_, ?_, ?_, ?_⟩ <;>
    first
      | (intro hws; simp [handleClientMessage, hws])
      | (by_cases hws : s.openaiWs = some ReadyState.OPEN <;>
          simp [handleClientMessage, hws])

/-- C9 witness: the theorem applied once to a session with an open upstream
socket (the implication's hypothesis holds there and the payload is
forwarded). -/
theorem audio_input_forward_iff_open_witness :
    (⟨ReadyState.OPEN, some ReadyState.OPEN, "s9", none⟩ : ClientSession).openaiWs
        = some ReadyState.OPEN ∧
    (((⟨ReadyState.OPEN, some ReadyState.OPEN, "s9", none⟩ : ClientSession).openaiWs
          = some ReadyState.OPEN →
        (handleClientMessage none ⟨ReadyState.OPEN, some ReadyState.OPEN, "s9", none⟩
          (.audioInput "QUJD")).toUpstream = [.inputAudioBufferAppend "QUJD"]) ∧
      ((⟨ReadyState.OPEN, some ReadyState.OPEN, "s9", none⟩ : ClientSession).openaiWs
          ≠ some ReadyState.OPEN →
        (handleClientMessage none ⟨ReadyState.OPEN, some ReadyState.OPEN, "s9", none⟩
          (.audioInput "QUJD")).toUpstream = []) ∧
      (handleClientMessage none ⟨ReadyState.OPEN, some ReadyState.OPEN, "s9", none⟩
        (.audioInput "QUJD")).toClient = [] ∧
      (handleClientMessage none ⟨ReadyState.OPEN, some ReadyState.OPEN, "s9", none⟩
        (.audioInput "QUJD")).session
        = ⟨ReadyState.OPEN, some ReadyState.OPEN, "s9", none⟩) :=
  ⟨rfl, audio_input_forward_iff_open none
    ⟨ReadyState.OPEN, some ReadyState.OPEN, "s9", none⟩ "QUJD"⟩

/-- C10: every emission toward the client goes through the `sendToClient`
guard, so when the client socket is not open every relay operation —
client-message handling, upstream-event translation, the upstream open,
error and close handlers, and connect-failure handling — delivers nothing
to the client and is a silent no-op on that channel rather than a failure. -/
theorem closed_client_all_sends_noop (s : ClientSession)
    (h : s.clientWs ≠ ReadyState.OPEN) :
    (∀ m, sendToClient s.clientWs m = []) ∧
    (∀ apiKey msg, (handleClientMessage apiKey s msg).toClient = []) ∧
    (∀ e, handleOpenAIEvent s e = []) ∧
    (onOpenAIClose s).2 = [] ∧
    onOpenAIError s = [] ∧
    (onOpenAIOpen s).effects
        = [Effect.toUpstream (.sessionUpdate (sessionUpdateFor s.config))] ∧
    (onConnectFailure s).2 = [] := by
  refine ⟨?_, ?_, ?_, ?_, ?_, ?_, ?_⟩
  · intro m
    simp [sendToClient, h]
  · intro apiKey msg
    cases msg with
    | sessionStart config =>
        cases apiKey with
        | none => simp [handleClientMessage, connectToOpenAI, sendToClient, h]
        | some k =>
            by_cases hk : k = "" <;>
              simp [handleClientMessage, connectToOpenAI, sendToClient, h, hk]
    | audioInput audio =>
        by_cases hws : s.openaiWs = some ReadyState.OPEN <;>
          simp [handleClientMessage, hws]
    | sessionEnd => simp [handleClientMessage, sendToClient, h]
  · intro e
    unfold handleOpenAIEvent
    repeat' split <;> try simp [sendToClient, h]
  · simp [onOpenAIClose, sendToClient, h]
  · simp [onOpenAIError, sendToClient, h]
  · simp [onOpenAIOpen, sendToClient, h]
  · simp [onConnectFailure, onOpenAIError, onOpenAIClose, sendToClient, h]

/-- C10 witness: the theorem applied to a session whose client socket has
closed, evaluated at a concrete message, event and handler. -/
theorem closed_client_all_sends_noop_witness :
    (⟨ReadyState.CLOSED, some ReadyState.OPEN, "s10", none⟩ : ClientSession).clientWs
        ≠ ReadyState.OPEN ∧
    ((∀ m, sendToClient
        (⟨ReadyState.CLOSED, some ReadyState.OPEN, "s10", none⟩ : ClientSession).clientWs
        m = []) ∧
      (∀ apiKey msg, (handleClientMessage apiKey
        ⟨ReadyState.CLOSED, some ReadyState.OPEN, "s10", none⟩ msg).toClient = []) ∧
      (∀ e, handleOpenAIEvent
        ⟨ReadyState.CLOSED, some ReadyState.OPEN, "s10", none⟩ e = []) ∧
      (onOpenAIClose ⟨ReadyState.CLOSED, some ReadyState.OPEN, "s10", none⟩).2 = [] ∧
      onOpenAIError ⟨ReadyState.CLOSED, some ReadyState.OPEN, "s10", none⟩ = [] ∧
      (onOpenAIOpen ⟨ReadyState.CLOSED, some ReadyState.OPEN, "s10", none⟩).effects
        = [Effect.toUpstream (.sessionUpdate (sessionUpdateFor
            (⟨ReadyState.CLOSED, some ReadyState.OPEN, "s10", none⟩
              : ClientSession).config))] ∧
      (onConnectFailure ⟨ReadyState.CLOSED, some ReadyState.OPEN, "s10", none⟩).2 = []) :=
  ⟨by decide, closed_client_all_sends_noop
    ⟨ReadyState.CLOSED, some ReadyState.OPEN, "s10", none⟩ (by decide)⟩

end Relay
